import Mathlib

/-!
Shallow embedding of the link-shortener request handlers
(`src/routes.rs`, `src/auth.rs`, `src/utils.rs`).

Each handler is modelled as a pure function.  Interactions with the
backing store, the system clock and the random generator are passed in
as oracle values (the outcome the store produced for each issued
query), and every observable side effect of the handler — log lines,
metric counter increments, and the store queries it issues together
with the values it binds into them — is collected in an explicit
`List Effect`, in program order.
-/

namespace LinkShortener

/-- `Link` from `src/routes.rs`: a short id and its destination URL. -/
structure Link where
  id : String
  targetUrl : String
deriving Repr, DecidableEq

/-- `Setting` from `src/auth.rs`: the settings row holding the hashed key. -/
structure Setting where
  id : String
  encrypted_global_api_key : String
deriving Repr, DecidableEq

/-- Tracing levels actually used by the handlers. -/
inductive LogLevel
  | debug
  | error
deriving Repr, DecidableEq

/-- The `sqlx::error::ErrorKind` variants scrutinised by `create_link`. -/
inductive DbErrorKind
  | uniqueViolation
  | foreignKeyViolation
  | notNullViolation
  | checkViolation
  | otherKind
deriving Repr, DecidableEq

/-- A store-reported failure (`sqlx::Error`): either a database error with a
kind (`Error::Database(db_err)` with `db_err.kind()`), or any other error.
Each carries its display string (what `err.to_string()` returns). -/
inductive StoreError
  | database (kind : DbErrorKind) (msg : String)
  | other (msg : String)
deriving Repr, DecidableEq

/-- `err.to_string()` of a `sqlx::Error`. -/
def StoreError.display : StoreError → String
  | .database _ msg => msg
  | .other msg => msg

/-- Result of `tokio::time::timeout(budget, fut).await`: either the deadline
elapsed, or the future completed with a value. -/
inductive Timed (α : Type)
  | elapsed
  | completed (val : α)
deriving Repr, DecidableEq

/-- Display string of `tokio::time::error::Elapsed`. -/
def elapsedMsg : String := "deadline has elapsed"

/-- An observable side effect of a handler: a log line, a metrics counter
increment, or a store query issued with the values bound into it. -/
inductive Effect
  | log (lvl : LogLevel) (msg : String)
  | counter (name : String)
  | querySelectLink (id : String)
  | queryInsertLink (id : String) (targetUrl : String)
  | queryInsertStatistic (linkId : String) (referer : Option String)
      (userAgent : Option String)
  | queryFetchSetting (id : String)
deriving Repr, DecidableEq

/-- `internal_error` from `src/utils.rs`: logs the error at error level,
increments the `request_error` counter, and returns
`(StatusCode::INTERNAL_SERVER_ERROR, err.to_string())`.  The argument is the
error's display string. -/
def internal_error (errMsg : String) : (Nat × String) × List Effect :=
  ((500, errMsg), [.log .error errMsg, .counter "request_error"])

/-! ## ID generation (`generate_id`, `src/routes.rs:40-43`) -/

/-- `u32::MAX`. -/
def u32Max : Nat := 4294967295

/-- `rand::thread_rng().gen_range(0..u32::MAX)`: maps the generator state to a
value in the half-open range `[0, u32::MAX)`.  The upper bound `u32::MAX` is
exclusive, so `u32::MAX` itself is never produced. -/
def genRangeU32 (rng : Nat) : Nat := rng % u32Max

/-- The URL-safe base64 alphabet (`base64::engine::general_purpose::URL_SAFE`):
`A-Z`, `a-z`, `0-9`, `-`, `_`. -/
def base64UrlAlphabet : List Char :=
  "ABCDEFGHIJKLMNOPQRSTUVWXYZabcdefghijklmnopqrstuvwxyz0123456789-_".toList

/-- The character the URL-safe alphabet assigns to a 6-bit value. -/
def base64Char (n : Nat) : Char := base64UrlAlphabet.getD n 'A'

/-- URL-safe base64 without padding (`URL_SAFE_NO_PAD.encode`), over a byte
list: 3-byte groups become 4 characters; a trailing 1-byte group becomes
2 characters and a trailing 2-byte group 3 characters, with no `=` padding. -/
def base64UrlNoPad : List Nat → List Char
  | [] => []
  | [b1] => [base64Char (b1 / 4), base64Char (b1 % 4 * 16)]
  | [b1, b2] =>
      [base64Char (b1 / 4), base64Char (b1 % 4 * 16 + b2 / 16),
       base64Char (b2 % 16 * 4)]
  | b1 :: b2 :: b3 :: rest =>
      base64Char (b1 / 4) :: base64Char (b1 % 4 * 16 + b2 / 16) ::
      base64Char (b2 % 16 * 4 + b3 / 64) :: base64Char (b3 % 64) ::
      base64UrlNoPad rest

/-- UTF-8 bytes of a string of ASCII characters (decimal digits here), as the
character code points. -/
def strBytes (s : String) : List Nat := s.toList.map Char.toNat

/-- `generate_id` from `src/routes.rs`: draw a pseudo-random number with
`gen_range(0..u32::MAX)`, format it in decimal (`to_string`), and encode the
decimal string with `URL_SAFE_NO_PAD`.  `rng` stands for the state of
`thread_rng()`. -/
def generate_id (rng : Nat) : String :=
  let random_number := genRangeU32 rng
  String.mk (base64UrlNoPad (strBytes (Nat.repr random_number)))

/-! ## Redirect handler (`redirect`, `src/routes.rs:49-122`) -/

/-- The constant `DEFAULT_CACHE_CONTROL_HEADER_VALUE` from `src/routes.rs`. -/
def DEFAULT_CACHE_CONTROL_HEADER_VALUE : String :=
  "public, max-age=300, s-maxage=300, stale-while-revalidate=300, stale-if-error=300"

/-- The successful redirect response built at the end of `redirect`: status
`TEMPORARY_REDIRECT`, a `Location` header, a `Cache-Control` header, and an
empty body. -/
structure RedirectResponse where
  status : Nat
  location : String
  cacheControl : String
  body : String
deriving Repr, DecidableEq

/-- `redirect` from `src/routes.rs`.  `lookup` is the outcome of the timed
`select id, target_url from links where id = $1` (`fetch_optional`);
`refererHeader`/`userAgentHeader` model `headers.get(..)`: `none` when the
header is absent, `some none` when present but not representable as text
(`to_str()` fails), `some (some s)` when present with text `s`; `statWrite`
is the outcome of the timed `insert into link_statistics` execution. -/
def redirect (requestedLink : String)
    (lookup : Timed (Except StoreError (Option Link)))
    (refererHeader userAgentHeader : Option (Option String))
    (statWrite : Timed (Except StoreError Unit)) :
    Except (Nat × String) RedirectResponse × List Effect :=
  let queryFx := Effect.querySelectLink requestedLink
  match lookup with
  | .elapsed =>
      let ie := internal_error elapsedMsg
      (.error ie.1, queryFx :: ie.2)
  | .completed (.error e) =>
      let ie := internal_error e.display
      (.error ie.1, queryFx :: ie.2)
  | .completed (.ok none) =>
      (.error (404, "Not found"), [queryFx])
  | .completed (.ok (some link)) =>
      let referer_header := refererHeader.map (fun v => v.getD "")
      let user_agent_header := userAgentHeader.map (fun v => v.getD "")
      let statFx : List Effect :=
        match statWrite with
        | .elapsed =>
            [.log .error ("Saving new link click resulted in a timeout: " ++
              elapsedMsg)]
        | .completed (.error err) =>
            [.log .error
              ("Saving a new link click failed with the following error: " ++
                err.display)]
        | .completed (.ok _) =>
            [.log .debug ("Persisted new link click for link with id " ++
              requestedLink ++ ", referer " ++ referer_header.getD "" ++
              ", and user_agent " ++ user_agent_header.getD "")]
      (.ok ⟨307, link.targetUrl, DEFAULT_CACHE_CONTROL_HEADER_VALUE, ""⟩,
       queryFx ::
         .log .debug ("Redirecting link id " ++ requestedLink ++ " to " ++
           link.targetUrl) ::
         Effect.queryInsertStatistic requestedLink referer_header
           user_agent_header ::
         statFx)

/-! ## Creation handler (`create_link`, `src/routes.rs:124-174`) -/

/-- Outcome of one timed insert attempt
(`insert into links ... returning id, target_url`, `fetch_one`): the timeout
elapsed, the insert succeeded returning the persisted row, or the store
reported an error. -/
inductive InsertOutcome
  | elapsed
  | inserted (link : Link)
  | failed (err : StoreError)
deriving Repr, DecidableEq

/-- The error-level message logged when all retries are exhausted. -/
def createExhaustedMsg : String :=
  "Could not persist new short link. Exhausted all retries of generating a unique id"

/-- The `for _ in 1..=3` loop body of `create_link`.  `ids` gives the
candidate id generated at each attempt, `store` the outcome of each
attempt's insert.  `fuel` is the number of remaining attempts and `attempt`
the index of the current one. -/
def createLoop (ids : Nat → String) (store : Nat → InsertOutcome)
    (url : String) :
    Nat → Nat → Except (Nat × String) Link × List Effect
  | 0, _ =>
      (.error (500, "Internal server error"),
       [.log .error createExhaustedMsg,
        .counter "saving_link_impossible_no_unique_id"])
  | fuel + 1, attempt =>
      let new_link_id := ids attempt
      let queryFx := Effect.queryInsertLink new_link_id url
      match store attempt with
      | .elapsed =>
          let ie := internal_error elapsedMsg
          (.error ie.1, queryFx :: ie.2)
      | .inserted link =>
          (.ok link,
           [queryFx,
            .log .debug ("Created new link with id " ++ new_link_id ++
              " targeting " ++ url)])
      | .failed err =>
          match err with
          | .database .uniqueViolation _ =>
              let rest := createLoop ids store url fuel (attempt + 1)
              (rest.1, queryFx :: rest.2)
          | _ =>
              let ie := internal_error err.display
              (.error ie.1, queryFx :: ie.2)

/-- `create_link` from `src/routes.rs`.  `parseUrl` models
`Url::parse(..).map(|u| u.to_string())`: `none` on a malformed URL, otherwise
the canonicalized string.  A malformed URL fails fast with
`(StatusCode::CONFLICT, "url malformed")`; otherwise the bounded 3-attempt
insert loop runs. -/
def create_link (parseUrl : String → Option String) (ids : Nat → String)
    (store : Nat → InsertOutcome) (target_url : String) :
    Except (Nat × String) Link × List Effect :=
  match parseUrl target_url with
  | none => (.error (409, "url malformed"), [])
  | some url => createLoop ids store url 3 0

/-! ## Authentication middleware (`auth`, `src/auth.rs:16-61`) -/

/-- `auth` from `src/auth.rs`.  `req` is the opaque inbound request and
`next` the downstream handler (`next.run`).  `apiKeyHeader` models
`req.headers().get("x-api-key")` as in `redirect`: `none` absent,
`some none` present but not text, `some (some s)` text `s`.  `fetchSetting`
is the outcome of the timed settings fetch (`fetch_one`), and `sha3hex`
models the hex-encoded SHA3-256 digest
(`format!("{:x}", Sha3_256::digest(..))`). -/
def auth (req : String) (next : String → String)
    (apiKeyHeader : Option (Option String))
    (fetchSetting : Timed (Except StoreError Setting))
    (sha3hex : String → String) :
    Except (Nat × String) String × List Effect :=
  match apiKeyHeader with
  | none =>
      (.error (401, "Unauthorized"),
       [.log .error "Unauthroized call to API: No key header received",
        .counter "unauthenticated_calls_count"])
  | some v =>
      let api_key := v.getD ""
      let queryFx := Effect.queryFetchSetting "DEFAULT_SETTINGS"
      match fetchSetting with
      | .elapsed =>
          let ie := internal_error elapsedMsg
          (.error ie.1, queryFx :: ie.2)
      | .completed (.error e) =>
          let ie := internal_error e.display
          (.error ie.1, queryFx :: ie.2)
      | .completed (.ok setting) =>
          if setting.encrypted_global_api_key ≠ sha3hex api_key then
            (.error (401, "Unauthorized"),
             [queryFx,
              .log .error "Unauthorized call to API: Incorrect key supplied",
              .counter "unauthenticated_calls_count"])
          else
            (.ok (next req), [queryFx])

/-! ## Step lemmas for the creation loop -/

/-- With no attempts left, the loop falls through to the Exhausted outcome. -/
theorem createLoop_zero (ids : Nat → String) (store : Nat → InsertOutcome)
    (url : String) (attempt : Nat) :
    createLoop ids store url 0 attempt =
      (.error (500, "Internal server error"),
       [.log .error createExhaustedMsg,
        .counter "saving_link_impossible_no_unique_id"]) := rfl

/-- A timed-out insert attempt aborts through `internal_error`. -/
theorem createLoop_elapsed (ids : Nat → String) (store : Nat → InsertOutcome)
    (url : String) (fuel attempt : Nat)
    (h : store attempt = .elapsed) :
    createLoop ids store url (fuel + 1) attempt =
      (.error (500, elapsedMsg),
       [Effect.queryInsertLink (ids attempt) url, .log .error elapsedMsg,
        .counter "request_error"]) := by
  simp only [createLoop, h, internal_error]

/-- A successful insert attempt returns the persisted link at once. -/
theorem createLoop_inserted (ids : Nat → String) (store : Nat → InsertOutcome)
    (url : String) (fuel attempt : Nat) (link : Link)
    (h : store attempt = .inserted link) :
    createLoop ids store url (fuel + 1) attempt =
      (.ok link,
       [Effect.queryInsertLink (ids attempt) url,
        .log .debug ("Created new link with id " ++ ids attempt ++
          " targeting " ++ url)]) := by
  simp only [createLoop, h]

/-- A uniqueness-violation failure continues with the next attempt. -/
theorem createLoop_conflict (ids : Nat → String) (store : Nat → InsertOutcome)
    (url : String) (fuel attempt : Nat) (m : String)
    (h : store attempt = .failed (.database .uniqueViolation m)) :
    createLoop ids store url (fuel + 1) attempt =
      ((createLoop ids store url fuel (attempt + 1)).1,
       Effect.queryInsertLink (ids attempt) url ::
         (createLoop ids store url fuel (attempt + 1)).2) := by
  simp only [createLoop, h]

/-- Any other insert failure aborts through `internal_error`. -/
theorem createLoop_failed_other (ids : Nat → String)
    (store : Nat → InsertOutcome) (url : String) (fuel attempt : Nat)
    (err : StoreError) (h : store attempt = .failed err)
    (hnot : ∀ m', err ≠ .database .uniqueViolation m') :
    createLoop ids store url (fuel + 1) attempt =
      (.error (500, err.display),
       [Effect.queryInsertLink (ids attempt) url, .log .error err.display,
        .counter "request_error"]) := by
  cases err with
  | database kind msg =>
      cases kind with
      | uniqueViolation => exact absurd rfl (hnot msg)
      | foreignKeyViolation =>
          simp only [createLoop, h, internal_error, StoreError.display]
      | notNullViolation =>
          simp only [createLoop, h, internal_error, StoreError.display]
      | checkViolation =>
          simp only [createLoop, h, internal_error, StoreError.display]
      | otherKind =>
          simp only [createLoop, h, internal_error, StoreError.display]
  | other msg => simp only [createLoop, h, internal_error, StoreError.display]

/-! ## Claim theorems -/

/-- Claim C1: in the Creation Workflow, if all 3 insertion attempts end in a
uniqueness Conflict, creation fails with the Exhausted outcome — the
`(500, "Internal server error")` response together with an error-level log
line and the dedicated `saving_link_impossible_no_unique_id` counter — and
this outcome is distinct from the `Internal` outcome: the exhausted path does
not increment `internal_error`'s `request_error` counter, and `internal_error`
(the path every timeout or other store failure takes) never increments the
dedicated no-unique-id counter. -/
theorem C1_exhausted_outcome (parseUrl : String → Option String)
    (ids : Nat → String) (store : Nat → InsertOutcome)
    (raw url m0 m1 m2 : String)
    (hp : parseUrl raw = some url)
    (h0 : store 0 = .failed (.database .uniqueViolation m0))
    (h1 : store 1 = .failed (.database .uniqueViolation m1))
    (h2 : store 2 = .failed (.database .uniqueViolation m2)) :
    (create_link parseUrl ids store raw).1 =
      .error (500, "Internal server error") ∧
    Effect.log .error createExhaustedMsg ∈
      (create_link parseUrl ids store raw).2 ∧
    Effect.counter "saving_link_impossible_no_unique_id" ∈
      (create_link parseUrl ids store raw).2 ∧
    Effect.counter "request_error" ∉ (create_link parseUrl ids store raw).2 ∧
    ∀ msg, Effect.counter "saving_link_impossible_no_unique_id" ∉
      (internal_error msg).2 := by
  have e0 : createLoop ids store url 3 0 =
      ((createLoop ids store url 2 1).1,
       Effect.queryInsertLink (ids 0) url ::
         (createLoop ids store url 2 1).2) :=
    createLoop_conflict ids store url 2 0 m0 h0
  have e1 : createLoop ids store url 2 1 =
      ((createLoop ids store url 1 2).1,
       Effect.queryInsertLink (ids 1) url ::
         (createLoop ids store url 1 2).2) :=
    createLoop_conflict ids store url 1 1 m1 h1
  have e2 : createLoop ids store url 1 2 =
      ((createLoop ids store url 0 3).1,
       Effect.queryInsertLink (ids 2) url ::
         (createLoop ids store url 0 3).2) :=
    createLoop_conflict ids store url 0 2 m2 h2
  simp only [create_link, hp, e0, e1, e2, createLoop_zero]
  refine ⟨by trivial, by simp, by simp, by simp [internal_error], ?_⟩
  intro msg
  simp [internal_error]

/-- Claim C1 witness: a concrete run in which all three insert attempts hit a
uniqueness violation. -/
theorem C1_exhausted_outcome_witness :
    (create_link (fun _ => some "https://a.example/")
      (fun _ => "id") (fun _ => .failed (.database .uniqueViolation "dup"))
      "https://a.example").1 = .error (500, "Internal server error") :=
  (C1_exhausted_outcome _ _ _ _ _ "dup" "dup" "dup" rfl rfl rfl rfl).1

/-- Claim C2: for a resolvable link id, the redirect response is the same for
every outcome of the click-event statistics write — the write feeds only the
effect log, never the status (307), the `Location` header, or the body. -/
theorem C2_stat_write_invisible (requestedLink : String) (link : Link)
    (refererHeader userAgentHeader : Option (Option String))
    (statWrite : Timed (Except StoreError Unit)) :
    (redirect requestedLink (.completed (.ok (some link)))
        refererHeader userAgentHeader statWrite).1 =
      .ok ⟨307, link.targetUrl, DEFAULT_CACHE_CONTROL_HEADER_VALUE, ""⟩ := by
  rfl

/-- Claim C3: in the bounded 3-attempt creation loop, (1) a successful insert
returns the persisted Link immediately, with exactly one insert query issued
whatever the store would answer later; (2) a uniqueness-violation failure is
retried and a success on the next attempt still yields the Link; (3) an
insert failure whose error is not a uniqueness violation aborts immediately
as Internal (500 with the error's message, `request_error` incremented);
(4) a timeout aborts immediately as Internal. -/
theorem C3_bounded_retry_loop (parseUrl : String → Option String)
    (ids : Nat → String) (raw url m : String) (link : Link)
    (hp : parseUrl raw = some url) :
    (∀ store : Nat → InsertOutcome, store 0 = .inserted link →
      create_link parseUrl ids store raw =
        (.ok link,
         [Effect.queryInsertLink (ids 0) url,
          .log .debug ("Created new link with id " ++ ids 0 ++
            " targeting " ++ url)])) ∧
    (∀ store : Nat → InsertOutcome,
      store 0 = .failed (.database .uniqueViolation m) →
      store 1 = .inserted link →
      (create_link parseUrl ids store raw).1 = .ok link) ∧
    (∀ store : Nat → InsertOutcome, ∀ err : StoreError,
      store 0 = .failed err →
      (∀ m', err ≠ .database .uniqueViolation m') →
      (create_link parseUrl ids store raw).1 = .error (500, err.display) ∧
      Effect.counter "request_error" ∈ (create_link parseUrl ids store raw).2) ∧
    (∀ store : Nat → InsertOutcome, store 0 = .elapsed →
      (create_link parseUrl ids store raw).1 = .error (500, elapsedMsg)) := by
  refine ⟨?_, ?_, ?_, ?_⟩
  · intro store h0
    have e : createLoop ids store url 3 0 =
        (.ok link,
         [Effect.queryInsertLink (ids 0) url,
          .log .debug ("Created new link with id " ++ ids 0 ++
            " targeting " ++ url)]) :=
      createLoop_inserted ids store url 2 0 link h0
    simp only [create_link, hp, e]
  · intro store h0 h1
    have e0 : createLoop ids store url 3 0 =
        ((createLoop ids store url 2 1).1,
         Effect.queryInsertLink (ids 0) url ::
           (createLoop ids store url 2 1).2) :=
      createLoop_conflict ids store url 2 0 m h0
    have e1 : createLoop ids store url 2 1 =
        (.ok link,
         [Effect.queryInsertLink (ids 1) url,
          .log .debug ("Created new link with id " ++ ids 1 ++
            " targeting " ++ url)]) :=
      createLoop_inserted ids store url 1 1 link h1
    simp only [create_link, hp, e0, e1]
  · intro store err h0 hnotuv
    have e : createLoop ids store url 3 0 =
        (.error (500, err.display),
         [Effect.queryInsertLink (ids 0) url, .log .error err.display,
          .counter "request_error"]) :=
      createLoop_failed_other ids store url 2 0 err h0 hnotuv
    simp only [create_link, hp, e]
    exact ⟨by trivial, by simp⟩
  · intro store h0
    have e : createLoop ids store url 3 0 =
        (.error (500, elapsedMsg),
         [Effect.queryInsertLink (ids 0) url, .log .error elapsedMsg,
          .counter "request_error"]) :=
      createLoop_elapsed ids store url 2 0 h0
    simp only [create_link, hp, e]

/-- Claim C3 witness: a concrete successful first attempt. -/
theorem C3_bounded_retry_loop_witness :
    create_link (fun _ => some "https://a.example/") (fun _ => "i7")
      (fun _ => .inserted ⟨"i7", "https://a.example/"⟩) "https://a.example" =
      (.ok ⟨"i7", "https://a.example/"⟩,
       [Effect.queryInsertLink "i7" "https://a.example/",
        .log .debug ("Created new link with id " ++ "i7" ++ " targeting " ++
          "https://a.example/")]) :=
  (C3_bounded_retry_loop (fun _ => some "https://a.example/") (fun _ => "i7")
    "https://a.example" "https://a.example/" "m"
    ⟨"i7", "https://a.example/"⟩ rfl).1 _ rfl

/-- Claim C4: the Secret Gate fails with Unauthorized (and the
unauthenticated-call counter) straight away when the credential header is
absent, issuing no settings query; a timed-out or failed Setting fetch is
Internal (500, never 401); a digest mismatch is Unauthorized; a match lets
the request proceed unchanged to the next handler. -/
theorem C4_secret_gate (req : String) (next : String → String)
    (sha3hex : String → String) (setting : Setting) (key : String)
    (e : StoreError) :
    (∀ fetch : Timed (Except StoreError Setting),
      auth req next none fetch sha3hex =
        (.error (401, "Unauthorized"),
         [.log .error "Unauthroized call to API: No key header received",
          .counter "unauthenticated_calls_count"])) ∧
    (∀ fetch : Timed (Except StoreError Setting), ∀ s : String,
      Effect.queryFetchSetting s ∉ (auth req next none fetch sha3hex).2) ∧
    (auth req next (some (some key)) .elapsed sha3hex).1 =
      .error (500, elapsedMsg) ∧
    (auth req next (some (some key)) (.completed (.error e)) sha3hex).1 =
      .error (500, e.display) ∧
    (setting.encrypted_global_api_key ≠ sha3hex key →
      (auth req next (some (some key)) (.completed (.ok setting))
          sha3hex).1 = .error (401, "Unauthorized")) ∧
    (setting.encrypted_global_api_key = sha3hex key →
      (auth req next (some (some key)) (.completed (.ok setting))
          sha3hex).1 = .ok (next req)) := by
  refine ⟨fun fetch => rfl, ?_, rfl, rfl, ?_, ?_⟩
  · intro fetch s
    simp [auth]
  · intro h
    simp [auth, h]
  · intro h
    simp [auth, h]

/-- Claim C4 witness: a concrete matching credential proceeds, concretising
every hypothesis of the gate theorem. -/
theorem C4_secret_gate_witness :
    (auth "req" (fun s => s) (some (some "k"))
        (.completed (.ok ⟨"DEFAULT_SETTINGS", "k#"⟩))
        (fun s => s ++ "#")).1 = .ok "req" :=
  (C4_secret_gate "req" (fun s => s) (fun s => s ++ "#")
      ⟨"DEFAULT_SETTINGS", "k#"⟩ "k" (.other "x")).2.2.2.2.2 rfl

/-- Claim C5 counterexample: a lookup failure inside `redirect` is an
`Internal` failure, and its response body is the underlying store error's
own message, verbatim — not a generic message.  Two different underlying
causes produce two different bodies. -/
theorem C5_counterexample :
    (redirect "abc"
        (.completed (.error (.other "connection refused by upstream database")))
        none none (.completed (.ok ()))).1 =
      .error (500, "connection refused by upstream database") ∧
    (redirect "abc" (.completed (.error (.other "pool timed out")))
        none none (.completed (.ok ()))).1 ≠
      (redirect "abc"
        (.completed (.error (.other "connection refused by upstream database")))
        none none (.completed (.ok ()))).1 := by
  refine ⟨rfl, ?_⟩
  simp [redirect, internal_error, StoreError.display]

/-- Claim C5 as amended: only the Exhausted failure carries the fixed generic
body `"Internal server error"`; an Internal failure (every path through
`internal_error`) carries the underlying error's own message; InvalidInput,
Unauthorized and NotFound carry the specific reason. -/
theorem C5_amended (ids : Nat → String) (store : Nat → InsertOutcome)
    (url req raw rl : String) (next : String → String)
    (fetch : Timed (Except StoreError Setting)) (sha3hex : String → String)
    (parseUrl : String → Option String) (ref ua : Option (Option String))
    (w : Timed (Except StoreError Unit))
    (hbad : parseUrl raw = none) :
    (∀ m, (internal_error m).1 = (500, m)) ∧
    (createLoop ids store url 0 0).1 = .error (500, "Internal server error") ∧
    (create_link parseUrl ids store raw).1 = .error (409, "url malformed") ∧
    (redirect rl (.completed (.ok none)) ref ua w).1 =
      .error (404, "Not found") ∧
    (auth req next none fetch sha3hex).1 = .error (401, "Unauthorized") := by
  refine ⟨fun m => rfl, rfl, ?_, rfl, rfl⟩
  simp only [create_link, hbad]

/-- Claim C5 witness: the amended statement at concrete inputs. -/
theorem C5_amended_witness :
    (create_link (fun _ => none) (fun _ => "i") (fun _ => .elapsed)
        "not a url").1 = .error (409, "url malformed") :=
  (C5_amended (fun _ => "i") (fun _ => .elapsed) "u" "req" "not a url" "rl"
    (fun s => s) .elapsed (fun s => s) (fun _ => none) none none
    (.completed (.ok ())) rfl).2.2.1

/-- Claim C6 counterexample: the value `u32::MAX = 4294967295` is never
drawn — `gen_range(0..u32::MAX)` uses a half-open range, so not every value
in the unsigned range is a possible draw. -/
theorem C6_counterexample : ¬ ∃ rng, genRangeU32 rng = 4294967295 := by
  rintro ⟨rng, h⟩
  have hmax : u32Max = 4294967295 := rfl
  have hlt : genRangeU32 rng < u32Max := Nat.mod_lt rng (by decide)
  omega

/-- Every character the URL-safe alphabet can produce is in the alphabet. -/
theorem base64Char_mem (n : Nat) : base64Char n ∈ base64UrlAlphabet := by
  unfold base64Char
  rw [List.getD_eq_getElem?_getD]
  rcases h : base64UrlAlphabet[n]? with _ | c
  · decide
  · simpa using List.getElem?_mem h

/-- Every character of a `URL_SAFE_NO_PAD` encoding is in the alphabet. -/
theorem base64UrlNoPad_mem : ∀ bs : List Nat, ∀ c ∈ base64UrlNoPad bs,
    c ∈ base64UrlAlphabet
  | [] => by simp [base64UrlNoPad]
  | [b1] => by
      intro c hc
      simp only [base64UrlNoPad, List.mem_cons, List.not_mem_nil,
        or_false] at hc
      rcases hc with rfl | rfl <;> exact base64Char_mem _
  | [b1, b2] => by
      intro c hc
      simp only [base64UrlNoPad, List.mem_cons, List.not_mem_nil,
        or_false] at hc
      rcases hc with rfl | rfl | rfl <;> exact base64Char_mem _
  | b1 :: b2 :: b3 :: rest => by
      intro c hc
      simp only [base64UrlNoPad, List.mem_cons] at hc
      rcases hc with rfl | rfl | rfl | rfl | hc
      · exact base64Char_mem _
      · exact base64Char_mem _
      · exact base64Char_mem _
      · exact base64Char_mem _
      · exact base64UrlNoPad_mem rest c hc

/-- Claim C6 as amended: the drawn pseudo-random integer ranges over the
half-open interval `[0, u32::MAX)` — every value strictly below `u32::MAX`
is a possible draw, but `u32::MAX` itself is not — the draw is formatted as
a decimal string and encoded with the URL-safe, padding-free base64
alphabet (no `=`, `+` or `/` can appear). -/
theorem C6_amended :
    (∀ v, (∃ rng, genRangeU32 rng = v) ↔ v < u32Max) ∧
    (∀ rng, generate_id rng =
      String.mk (base64UrlNoPad (strBytes (Nat.repr (genRangeU32 rng))))) ∧
    (∀ rng, ∀ c ∈ (generate_id rng).toList, c ∈ base64UrlAlphabet) ∧
    '=' ∉ base64UrlAlphabet ∧ '+' ∉ base64UrlAlphabet ∧
    '/' ∉ base64UrlAlphabet := by
  refine ⟨?_, fun rng => rfl, ?_, by decide, by decide, by decide⟩
  · intro v
    constructor
    · rintro ⟨rng, rfl⟩
      exact Nat.mod_lt rng (by decide)
    · intro hv
      exact ⟨v, Nat.mod_eq_of_lt hv⟩
  · intro rng c hc
    exact base64UrlNoPad_mem _ c hc

/-- Claim C6 witness: the amended statement at concrete inputs — `7` is a
possible draw, and the first character of a concrete id is in the URL-safe
alphabet. -/
theorem C6_amended_witness :
    (∃ rng, genRangeU32 rng = 7) ∧ 'M' ∈ base64UrlAlphabet :=
  ⟨(C6_amended.1 7).mpr (by decide), C6_amended.2.2.1 0 'M' (by decide)⟩

/-- Claim C7 counterexample: a referer header that is present but not
representable as text is recorded as the present empty string `some ""`,
not as absent — the click-event write binds `some ""`, and never binds an
absent referer, on that request. -/
theorem C7_counterexample :
    Effect.queryInsertStatistic "abc" (some "") none ∈
      (redirect "abc"
        (.completed (.ok (some ⟨"abc", "https://t.example/"⟩)))
        (some none) none (.completed (.ok ()))).2 ∧
    Effect.queryInsertStatistic "abc" none none ∉
      (redirect "abc"
        (.completed (.ok (some ⟨"abc", "https://t.example/"⟩)))
        (some none) none (.completed (.ok ()))).2 := by
  constructor <;> decide

/-- Claim C7 as amended: header extraction is best-effort and never fails
the request — a missing header is recorded as absent, a text value is
recorded verbatim, and a present-but-non-text value is recorded as the
present empty string (not as absent), the redirect still succeeding. -/
theorem C7_amended (rl : String) (link : Link)
    (w : Timed (Except StoreError Unit)) (r u : String) :
    Effect.queryInsertStatistic rl none none ∈
      (redirect rl (.completed (.ok (some link))) none none w).2 ∧
    Effect.queryInsertStatistic rl (some r) (some u) ∈
      (redirect rl (.completed (.ok (some link))) (some (some r))
        (some (some u)) w).2 ∧
    Effect.queryInsertStatistic rl (some "") (some "") ∈
      (redirect rl (.completed (.ok (some link))) (some none) (some none)
        w).2 ∧
    (redirect rl (.completed (.ok (some link))) (some none) (some none)
        w).1 =
      .ok ⟨307, link.targetUrl, DEFAULT_CACHE_CONTROL_HEADER_VALUE, ""⟩ := by
  refine ⟨?_, ?_, ?_, rfl⟩ <;> simp [redirect]

/-- Claim C8: a valid URL is canonicalized before being persisted, the Link
returned by creation carries that canonicalized form, and a redirect on the
returned id (looking up the stored row) answers with a `Location` equal to
exactly that canonicalized URL. -/
theorem C8_create_redirect_roundtrip (parseUrl : String → Option String)
    (ids : Nat → String) (store : Nat → InsertOutcome) (raw canon : String)
    (ref ua : Option (Option String)) (w : Timed (Except StoreError Unit))
    (hp : parseUrl raw = some canon)
    (hstore : store 0 = .inserted ⟨ids 0, canon⟩) :
    (create_link parseUrl ids store raw).1 = .ok ⟨ids 0, canon⟩ ∧
    (redirect (ids 0) (.completed (.ok (some ⟨ids 0, canon⟩))) ref ua w).1 =
      .ok ⟨307, canon, DEFAULT_CACHE_CONTROL_HEADER_VALUE, ""⟩ := by
  constructor
  · have e : createLoop ids store canon 3 0 =
        (.ok ⟨ids 0, canon⟩,
         [Effect.queryInsertLink (ids 0) canon,
          .log .debug ("Created new link with id " ++ ids 0 ++
            " targeting " ++ canon)]) :=
      createLoop_inserted ids store canon 2 0 _ hstore
    simp only [create_link, hp, e]
  · rfl

/-- Claim C8 witness: a concrete round trip in which the canonicalized URL
differs from the raw client input (a trailing slash is added). -/
theorem C8_create_redirect_roundtrip_witness :
    (create_link (fun _ => some "https://a.example/") (fun _ => "i7")
        (fun _ => .inserted ⟨"i7", "https://a.example/"⟩)
        "https://a.example").1 = .ok ⟨"i7", "https://a.example/"⟩ ∧
    (redirect "i7"
        (.completed (.ok (some ⟨"i7", "https://a.example/"⟩))) none none
        (.completed (.ok ()))).1 =
      .ok ⟨307, "https://a.example/", DEFAULT_CACHE_CONTROL_HEADER_VALUE,
        ""⟩ :=
  C8_create_redirect_roundtrip (fun _ => some "https://a.example/")
    (fun _ => "i7") (fun _ => .inserted ⟨"i7", "https://a.example/"⟩)
    "https://a.example" "https://a.example/" none none
    (.completed (.ok ())) rfl rfl

/-- Claim C9: a redirect for an id with no stored Link returns
`(404, "Not found")` and issues no click-event write; a lookup timeout or
store failure instead yields Internal (500). -/
theorem C9_unknown_id (rl : String) (ref ua : Option (Option String))
    (w : Timed (Except StoreError Unit)) (e : StoreError) :
    (redirect rl (.completed (.ok none)) ref ua w).1 =
      .error (404, "Not found") ∧
    (∀ linkId r u, Effect.queryInsertStatistic linkId r u ∉
      (redirect rl (.completed (.ok none)) ref ua w).2) ∧
    (redirect rl .elapsed ref ua w).1 = .error (500, elapsedMsg) ∧
    (redirect rl (.completed (.error e)) ref ua w).1 =
      .error (500, e.display) := by
  refine ⟨rfl, ?_, rfl, rfl⟩
  intro linkId r u
  simp [redirect]

/-- Claim C10: a credential header that is present but not representable as
text is not treated as missing — the empty string is substituted, the
Setting fetch is still issued, and with a successful fetch the request is
authorized exactly when the stored hash equals the digest of the empty
string. -/
theorem C10_empty_key_substitution (req : String) (next : String → String)
    (sha3hex : String → String) (setting : Setting)
    (fetch : Timed (Except StoreError Setting)) :
    Effect.queryFetchSetting "DEFAULT_SETTINGS" ∈
      (auth req next (some none) fetch sha3hex).2 ∧
    ((auth req next (some none) (.completed (.ok setting)) sha3hex).1 =
        .ok (next req) ↔
      setting.encrypted_global_api_key = sha3hex "") := by
  constructor
  · cases fetch with
    | elapsed => simp [auth, internal_error]
    | completed v =>
        cases v with
        | error e => simp [auth, internal_error]
        | ok s =>
            by_cases h : s.encrypted_global_api_key = sha3hex ""
            · simp [auth, h]
            · simp [auth, h]
  · constructor
    · intro h
      by_cases hk : setting.encrypted_global_api_key = sha3hex ""
      · exact hk
      · exact absurd h (by simp [auth, hk])
    · intro hk
      simp [auth, hk]

/-- Claim C10 witness: a stored hash equal to the digest of the empty string
authorizes a request whose credential header is present but not text. -/
theorem C10_empty_key_substitution_witness :
    (auth "req" (fun s => s) (some none)
        (.completed (.ok ⟨"DEFAULT_SETTINGS", "h0"⟩))
        (fun _ => "h0")).1 = .ok "req" :=
  (C10_empty_key_substitution "req" (fun s => s) (fun _ => "h0")
      ⟨"DEFAULT_SETTINGS", "h0"⟩
      (.completed (.ok ⟨"DEFAULT_SETTINGS", "h0"⟩))).2.mpr rfl

end LinkShortener
